import Mathlib

/-!
Verification of the alarm-bot scheduling core (`src/main.py`, `src/database.py`).

Instants are modelled as integer seconds on the UTC timeline (the Python code
stores ISO-8601 UTC strings; every stored time is written via
`astimezone(pytz.UTC).isoformat()`, so string order is instant order and we
work with the instants directly).

The pytz API surface used by `compute_next_recurring_utc` is embedded
faithfully:
* a `pytz` timezone is, at any instant, a fixed UTC offset; the timezone as a
  whole is a function from UTC instants to offsets (`Tz.off`);
* an aware datetime is a pair of local wall-clock reading and the fixed
  offset currently attached to it (`Aware`); its absolute instant is
  `wall - tzoff`;
* `datetime.astimezone(tz)` keeps the instant and attaches the offset the
  timezone prescribes at that instant;
* `aware + timedelta(d)` is naive field arithmetic: it moves the wall clock
  by `d` and keeps the attached fixed offset, hence moves the instant by
  exactly `d`;
* `tz.normalize(dt)` re-derives the correct offset for `dt`'s instant and
  re-expresses the wall clock accordingly, keeping the instant;
* `astimezone(pytz.UTC)` yields the instant itself.
-/

namespace AlarmBot

/-- A pytz timezone: the UTC offset (in seconds) it prescribes at each UTC
instant. -/
structure Tz where
  off : Int → Int

/-- An aware `datetime`: local wall-clock reading (seconds) together with the
fixed UTC offset attached to it. -/
structure Aware where
  wall : Int
  tzoff : Int

/-- The absolute UTC instant an aware datetime denotes. -/
def Aware.instant (a : Aware) : Int := a.wall - a.tzoff

/-- `datetime.astimezone(tz)` for a UTC instant `t`: same instant, wall clock
and offset as prescribed by `tz` at `t`. -/
def astimezone (t : Int) (tz : Tz) : Aware := ⟨t + tz.off t, tz.off t⟩

/-- `aware + timedelta(d)`: wall-clock arithmetic, offset unchanged. -/
def addTimedelta (a : Aware) (d : Int) : Aware := ⟨a.wall + d, a.tzoff⟩

/-- `tz.normalize(dt)`: keep the instant, re-attach the offset `tz`
prescribes at that instant. -/
def normalize (tz : Tz) (a : Aware) : Aware :=
  ⟨a.instant + tz.off a.instant, tz.off a.instant⟩

/-- `aware.astimezone(pytz.UTC)`, read off as the UTC instant. -/
def toUtc (a : Aware) : Int := a.instant

def secondsPerDay : Int := 86400

def secondsPerWeek : Int := 604800

/-- Embedding of `compute_next_recurring_utc` (src/main.py:80-103): convert
the stored UTC instant to the owner's timezone, add one day (for "daily" and
for any unrecognized value) or one week (for "weekly") with aware
`timedelta` arithmetic, `normalize`, and convert back to UTC. -/
def compute_next_recurring_utc (alarm_time_utc : Int) (tz : Tz) (rep : String) : Int :=
  let lcl := astimezone alarm_time_utc tz
  let lclNext :=
    if rep = "daily" then addTimedelta lcl secondsPerDay
    else if rep = "weekly" then addTimedelta lcl secondsPerWeek
    else addTimedelta lcl secondsPerDay
  toUtc (normalize tz lclNext)

/-- The local wall-clock reading of instant `t` in timezone `tz`. -/
def localWall (tz : Tz) (t : Int) : Int := t + tz.off t

/-- Second-of-day of the local wall clock at instant `t` in `tz`. -/
def localSecondsOfDay (tz : Tz) (t : Int) : Int := localWall tz t % 86400

/-- UTC instant of the 2024 US spring-forward transition,
2024-03-10T07:00:00Z, as Unix seconds. -/
def nySpringForward2024 : Int := 1710054000

/-- America/New_York around March 2024: UTC-5 before the spring-forward
instant, UTC-4 from it on. -/
def americaNewYork : Tz :=
  ⟨fun t => if t < nySpringForward2024 then -18000 else -14400⟩

/-- 2024-03-09T09:00:00-05:00 America/New_York = 2024-03-09T14:00:00Z, as
Unix seconds. -/
def scenarioAStart : Int := 1709992800

/-!
The alarm store (`src/database.py`) and the scheduler tick
(`check_alarms`, src/main.py:667-696).

An alarm row carries the columns of the `alarms` table; `rep` is the
`repeat` column (`'daily' | 'weekly' | NULL`). The store is the list of
rows. Python truthiness of `alarm['repeat']` (NULL and `""` are falsy) and
of `alarm['channel_id']` (NULL and `0` are falsy) is modelled explicitly.

External effects that can fail are collected in `Env`:
`getChannel`/`sendOk` model the delivery sink (`bot.get_channel`,
`bot.fetch_user` + `channel.send`), `tzKnown`/`tzOf` model the pytz
database lookup inside `compute_next_recurring_utc`, and the `...Ok...`
flags say, per call site and alarm id, whether the corresponding store
mutation commits or raises a storage error (a failed mutation writes
nothing). `processAlarm` returns `Except Unit Store`: `.error ()` is an
exception escaping the per-alarm `except` handler, which aborts the scan.
-/

structure Alarm where
  id : Nat
  user_id : Nat
  time : Int
  message : String
  channel_id : Option Int
  timezone : String
  rep : Option String
  paused : Bool
  created_at_utc : Int
deriving DecidableEq

abbrev Store := List Alarm

structure Env where
  getChannel : Int → Bool
  sendOk : Nat → Bool
  tzKnown : String → Bool
  tzOf : String → Tz
  updateOk : Nat → Bool
  pauseOkTry : Nat → Bool
  deleteOkTry : Nat → Bool
  pauseOkExc : Nat → Bool
  deleteOkExc : Nat → Bool

/-- Python truthiness of the `repeat` column: NULL and the empty string are
falsy. -/
def repeatTruthy : Option String → Bool
  | none => false
  | some r => r != ""

/-- `bot.get_channel(alarm['channel_id']) if alarm['channel_id'] else None`
resolved to a usable channel: the column must be present, nonzero (Python
`0` is falsy) and resolvable. -/
def channelFound (env : Env) : Option Int → Bool
  | none => false
  | some c => c != 0 && env.getChannel c

/-- Embedding of `set_alarm_paused` (src/database.py:146-149):
`UPDATE alarms SET paused=? WHERE id=?`. -/
def set_alarm_paused (s : Store) (i : Nat) (p : Bool) : Store :=
  s.map fun a => if a.id = i then { a with paused := p } else a

/-- Embedding of `delete_alarm` (src/database.py:122-125):
`DELETE FROM alarms WHERE id=?`. -/
def delete_alarm (s : Store) (i : Nat) : Store :=
  s.filter fun a => a.id != i

/-- Embedding of `update_alarm_time` (src/database.py:127-133):
`UPDATE alarms SET time_utc=? WHERE id=?`. -/
def update_alarm_time (s : Store) (i : Nat) (t : Int) : Store :=
  s.map fun a => if a.id = i then { a with time := t } else a

/-- Embedding of `snooze_alarm` (src/database.py:151-163): look the row up
by id; absent → `False` and no write; present → add the delta to the row's
stored `time_utc` (not to the current clock — the function reads no clock)
and write it back, returning `True`. -/
def snooze_alarm (s : Store) (i : Nat) (delta : Int) : Bool × Store :=
  match s.find? (fun a => a.id == i) with
  | none => (false, s)
  | some a0 =>
      (true, s.map fun a => if a.id = i then { a with time := a0.time + delta } else a)

/-- Embedding of `get_due_alarms` (src/database.py:97-120):
`WHERE paused=0 AND time_utc <= now ORDER BY time_utc ASC`. The SQL sort is
modelled by insertion sort on the fire time (a sorted permutation; SQL
leaves tie order unspecified). -/
def get_due_alarms (s : Store) (now : Int) : List Alarm :=
  List.insertionSort (fun a b => a.time ≤ b.time)
    (s.filter fun a => !a.paused && decide (a.time ≤ now))

/-- Embedding of `get_user_alarms` (src/database.py:73-95):
`WHERE user_id=? ORDER BY time_utc ASC`. -/
def get_user_alarms (s : Store) (u : Nat) : List Alarm :=
  List.insertionSort (fun a b => a.time ≤ b.time)
    (s.filter fun a => a.user_id == u)

/-- The `except` handler of the due-scan loop (src/main.py:690-696): pause a
recurring alarm, delete a one-time one; if that store call itself raises,
the exception escapes the handler and aborts the scan. -/
def handleAlarmError (env : Env) (s : Store) (a : Alarm) : Except Unit Store :=
  if repeatTruthy a.rep then
    if env.pauseOkExc a.id then .ok (set_alarm_paused s a.id true) else .error ()
  else
    if env.deleteOkExc a.id then .ok (delete_alarm s a.id) else .error ()

/-- The body of the due-scan loop for one alarm (src/main.py:670-696):
missing channel → pause (recurring) or delete (one-time); then delivery;
on success, advance a recurring alarm via `compute_next_recurring_utc` or
delete a one-time one; any raise inside the `try` falls to
`handleAlarmError`. -/
def processAlarm (env : Env) (s : Store) (a : Alarm) : Except Unit Store :=
  if !channelFound env a.channel_id then
    if repeatTruthy a.rep then
      if env.pauseOkTry a.id then .ok (set_alarm_paused s a.id true)
      else handleAlarmError env s a
    else
      if env.deleteOkTry a.id then .ok (delete_alarm s a.id)
      else handleAlarmError env s a
  else if !env.sendOk a.id then
    handleAlarmError env s a
  else if repeatTruthy a.rep then
    if !env.tzKnown a.timezone then handleAlarmError env s a
    else if env.updateOk a.id then
      .ok (update_alarm_time s a.id
        (compute_next_recurring_utc a.time (env.tzOf a.timezone) (a.rep.getD "")))
    else handleAlarmError env s a
  else
    if env.deleteOkTry a.id then .ok (delete_alarm s a.id)
    else handleAlarmError env s a

/-- The `for alarm in due_alarms` loop: sequential, stops with flag `true`
(scan aborted, remaining due alarms unprocessed) when a per-alarm exception
escapes the handler. -/
def runDueScan (env : Env) : Store → List Alarm → Store × Bool
  | s, [] => (s, false)
  | s, a :: rest =>
      match processAlarm env s a with
      | .ok s' => runDueScan env s' rest
      | .error _ => (s, true)

/-- One tick of `check_alarms` (src/main.py:667-696): fetch the due set,
then scan it. -/
def check_alarms (env : Env) (s : Store) (now : Int) : Store × Bool :=
  runDueScan env s (get_due_alarms s now)

instance : IsTotal Alarm (fun a b => a.time ≤ b.time) :=
  ⟨fun a b => Int.le_total a.time b.time⟩

instance : IsTrans Alarm (fun a b => a.time ≤ b.time) :=
  ⟨fun _ _ _ hab hbc => le_trans hab hbc⟩

/-! Concrete rows and environments used by witnesses and counterexamples. -/

/-- A one-time alarm row. -/
def oneShotRow : Alarm :=
  { id := 1, user_id := 7, time := 50, message := "m", channel_id := some 5,
    timezone := "UTC", rep := none, paused := false, created_at_utc := 0 }

/-- A daily recurring alarm row. -/
def dailyRow : Alarm :=
  { id := 1, user_id := 7, time := 50, message := "m", channel_id := some 5,
    timezone := "UTC", rep := some "daily", paused := false, created_at_utc := 0 }

/-- A second, later, one-time alarm row with a distinct id. -/
def lateOneShotRow : Alarm :=
  { id := 2, user_id := 8, time := 60, message := "n", channel_id := some 5,
    timezone := "UTC", rep := none, paused := false, created_at_utc := 0 }

/-- Environment where every external call succeeds. -/
def okEnv : Env :=
  { getChannel := fun _ => true, sendOk := fun _ => true, tzKnown := fun _ => true,
    tzOf := fun _ => ⟨fun _ => 0⟩, updateOk := fun _ => true,
    pauseOkTry := fun _ => true, deleteOkTry := fun _ => true,
    pauseOkExc := fun _ => true, deleteOkExc := fun _ => true }

/-- Environment where only `update_alarm_time` raises a storage error. -/
def updFailEnv : Env :=
  { okEnv with updateOk := fun _ => false }

/-- Environment where every delivery attempt fails but all store calls
succeed. -/
def sendFailEnv : Env :=
  { okEnv with sendOk := fun _ => false }

/-- Environment where delivery to alarm 1 fails and the except-handler's
`set_alarm_paused` for alarm 1 also raises a storage error. -/
def scanAbortEnv : Env :=
  { okEnv with sendOk := fun i => i != 1, pauseOkExc := fun i => i != 1 }

/-! Theorems. -/

/-- The pytz round trip `astimezone; + timedelta d; normalize; astimezone UTC`
moves the UTC instant by exactly `d`: aware `timedelta` addition keeps the
attached fixed offset, and `normalize` keeps the instant. Hence
`compute_next_recurring_utc` always advances the UTC instant by exactly
86400 s, or 604800 s for "weekly", for every timezone. -/
theorem compute_next_closed_form (t : Int) (tz : Tz) (r : String) :
    compute_next_recurring_utc t tz r =
      t + (if r = "weekly" then secondsPerWeek else secondsPerDay) := by
  unfold compute_next_recurring_utc
  split_ifs with h1 h2 <;>
    first
      | exact absurd (h1.symm.trans h2) (by decide)
      | (simp only [astimezone, addTimedelta, normalize, toUtc, Aware.instant]; ring)

/-- Claim C1 (code behavior at Scenario A). Starting from
2024-03-09T09:00:00 local America/New_York (= 14:00 Z) with recurrence
"daily", the code returns an instant exactly 24 hours later
(2024-03-10T14:00:00Z), whose local civil time is 10:00, not 09:00: the
local second-of-day moves from 32400 (09:00) to 36000 (10:00), so the
spec's Scenario A value of 23 hours (wall-clock stability) is violated. -/
theorem scenarioA_pytz_normalize_keeps_instant :
    compute_next_recurring_utc scenarioAStart americaNewYork "daily" =
      scenarioAStart + 86400 ∧
    localSecondsOfDay americaNewYork scenarioAStart = 32400 ∧
    localSecondsOfDay americaNewYork
      (compute_next_recurring_utc scenarioAStart americaNewYork "daily") = 36000 := by
  refine ⟨?_, ?_, ?_⟩ <;> decide

/-- Claim C2: the recurrence calculator's result is strictly greater than
its input instant, for every instant, every timezone and every recurrence
string (in particular "daily" and "weekly"). -/
theorem compute_next_recurring_utc_monotone (t : Int) (tz : Tz) (r : String) :
    t < compute_next_recurring_utc t tz r := by
  rw [compute_next_closed_form]
  by_cases h : r = "weekly" <;> simp [h, secondsPerDay, secondsPerWeek]

/-- Claim C9: the recurrence calculator is deterministic — it is embedded as
a pure function (the Python body reads no clock and no mutable state; the
pytz database lookup is part of the `Tz` argument), so two invocations on
identical inputs give identical outputs. -/
theorem compute_next_recurring_utc_deterministic
    (t₁ t₂ : Int) (tz₁ tz₂ : Tz) (r₁ r₂ : String)
    (ht : t₁ = t₂) (htz : tz₁ = tz₂) (hr : r₁ = r₂) :
    compute_next_recurring_utc t₁ tz₁ r₁ = compute_next_recurring_utc t₂ tz₂ r₂ := by
  subst ht; subst htz; subst hr; rfl

/-- Witness for C9 at concrete inputs. -/
theorem compute_next_recurring_utc_deterministic_witness :
    compute_next_recurring_utc scenarioAStart americaNewYork "daily" =
      compute_next_recurring_utc scenarioAStart americaNewYork "daily" :=
  compute_next_recurring_utc_deterministic scenarioAStart scenarioAStart
    americaNewYork americaNewYork "daily" "daily" rfl rfl rfl

/-- Claim C10: every recurrence value other than "weekly" — including
unrecognized strings — takes the fallback `else` branch and behaves exactly
like "daily": the result equals the "daily" result, is `t + 86400`, and in
particular the calculator neither fails (the embedding is total) nor leaves
the time unchanged. -/
theorem compute_next_recurring_utc_default_daily (t : Int) (tz : Tz) (r : String)
    (h : r ≠ "weekly") :
    compute_next_recurring_utc t tz r = compute_next_recurring_utc t tz "daily" ∧
    compute_next_recurring_utc t tz r = t + secondsPerDay ∧
    compute_next_recurring_utc t tz r ≠ t := by
  have hD : compute_next_recurring_utc t tz "daily" = t + secondsPerDay := by
    rw [compute_next_closed_form]; simp
  have hR : compute_next_recurring_utc t tz r = t + secondsPerDay := by
    rw [compute_next_closed_form, if_neg h]
  refine ⟨hR.trans hD.symm, hR, ?_⟩
  rw [hR]
  simp only [secondsPerDay]
  omega

/-- Witness for C10 at the unrecognized recurrence string "monthly". -/
theorem compute_next_recurring_utc_default_daily_witness :
    compute_next_recurring_utc 0 americaNewYork "monthly" =
      compute_next_recurring_utc 0 americaNewYork "daily" ∧
    compute_next_recurring_utc 0 americaNewYork "monthly" = 0 + secondsPerDay ∧
    compute_next_recurring_utc 0 americaNewYork "monthly" ≠ 0 :=
  compute_next_recurring_utc_default_daily 0 americaNewYork "monthly" (by decide)

/-- Claim C7: `get_due_alarms` returns exactly the rows with
`paused = false` and `time_utc ≤ now` (as a permutation of that filter, and
membership-wise), sorted by fire time ascending; hence an unpaused alarm
due one second ago is returned and a paused one with the same time is not
(the membership characterization applied at `time = now - 1`). -/
theorem get_due_alarms_spec (s : Store) (now : Int) :
    (get_due_alarms s now).Perm
      (s.filter fun a => !a.paused && decide (a.time ≤ now)) ∧
    List.Sorted (fun a b : Alarm => a.time ≤ b.time) (get_due_alarms s now) ∧
    ∀ a : Alarm, a ∈ get_due_alarms s now ↔
      a ∈ s ∧ a.paused = false ∧ a.time ≤ now := by
  refine ⟨List.perm_insertionSort _ _, List.sorted_insertionSort _ _, fun a => ?_⟩
  rw [get_due_alarms, List.mem_insertionSort, List.mem_filter]
  simp [and_assoc]

/-- Claim C8: snooze adds the delta to the stored fire time. If some row has
the requested id, the call reports success, the row with `time = X` becomes
the same row with `time = X + d` (every other field untouched), and rows
with other ids are unchanged; if no row has the id, the call reports
failure and the store is returned unchanged. The embedded function takes no
clock argument, matching the source, so the result is independent of the
current wall-clock time. -/
theorem snooze_alarm_spec (s : Store) (i : Nat) (d : Int) :
    (∀ a0, s.find? (fun a => a.id == i) = some a0 →
      (snooze_alarm s i d).1 = true ∧
      ∀ b ∈ s,
        (b.id = i → { b with time := a0.time + d } ∈ (snooze_alarm s i d).2) ∧
        (b.id ≠ i → b ∈ (snooze_alarm s i d).2)) ∧
    ((∀ b ∈ s, b.id ≠ i) → snooze_alarm s i d = (false, s)) := by
  constructor
  · intro a0 hfind
    have hs : snooze_alarm s i d =
        (true, s.map fun a => if a.id = i then { a with time := a0.time + d } else a) := by
      rw [snooze_alarm, hfind]
    refine ⟨by rw [hs], fun b hb => ⟨fun hbi => ?_, fun hbi => ?_⟩⟩
    · rw [hs]
      exact List.mem_map.2 ⟨b, hb, by rw [if_pos hbi]⟩
    · rw [hs]
      exact List.mem_map.2 ⟨b, hb, by rw [if_neg hbi]⟩
  · intro hnone
    have hfind : s.find? (fun a => a.id == i) = none := by
      rw [List.find?_eq_none]
      intro b hb
      simpa using hnone b hb
    rw [snooze_alarm, hfind]

/-- Witness for C8: in a two-row store, snoozing id 1 by 600 s succeeds and
moves that row's time from 50 to 650 while the id-2 row is untouched;
snoozing the absent id 9 fails and returns the store unchanged. -/
theorem snooze_alarm_spec_witness :
    ((snooze_alarm [oneShotRow, lateOneShotRow] 1 600).1 = true ∧
      ({ oneShotRow with time := 650 } : Alarm) ∈
        (snooze_alarm [oneShotRow, lateOneShotRow] 1 600).2 ∧
      lateOneShotRow ∈ (snooze_alarm [oneShotRow, lateOneShotRow] 1 600).2) ∧
    snooze_alarm [oneShotRow, lateOneShotRow] 9 600 =
      (false, [oneShotRow, lateOneShotRow]) := by
  have h := (snooze_alarm_spec [oneShotRow, lateOneShotRow] 1 600).1 oneShotRow (by decide)
  refine ⟨⟨h.1, ?_, ?_⟩, ?_⟩
  · exact (h.2 oneShotRow (by simp)).1 rfl
  · exact (h.2 lateOneShotRow (by simp)).2 (by decide)
  · exact (snooze_alarm_spec [oneShotRow, lateOneShotRow] 9 600).2 (by decide)

/-- Claim C4: a one-time (non-recurring) alarm reached by the due scan is
deleted whatever happens — channel missing, delivery failure, or delivery
success — as long as the `delete_alarm` store calls themselves commit; the
result is exactly `delete_alarm`, no row with its id survives, and it no
longer appears in any owner listing. -/
theorem one_time_alarm_always_deleted (env : Env) (s : Store) (a : Alarm)
    (hrep : repeatTruthy a.rep = false)
    (hd1 : env.deleteOkTry a.id = true) (hd2 : env.deleteOkExc a.id = true) :
    processAlarm env s a = .ok (delete_alarm s a.id) ∧
    (∀ b ∈ delete_alarm s a.id, b.id ≠ a.id) ∧
    ∀ u : Nat, ∀ b ∈ get_user_alarms (delete_alarm s a.id) u, b.id ≠ a.id := by
  have hdel : ∀ b ∈ delete_alarm s a.id, b.id ≠ a.id := by
    intro b hb
    simpa using (List.mem_filter.1 hb).2
  refine ⟨?_, hdel, fun u b hb => hdel b ?_⟩
  · unfold processAlarm handleAlarmError
    simp only [hrep, hd1, hd2, Bool.false_eq_true, if_false, if_true, ite_true, ite_false]
    split_ifs <;> rfl
  · exact (List.mem_filter.1 ((List.mem_insertionSort _).1 hb)).1

/-- Witness for C4: the one-time row is deleted even though every delivery
attempt in `sendFailEnv` fails. -/
theorem one_time_alarm_always_deleted_witness :
    processAlarm sendFailEnv [oneShotRow, lateOneShotRow] oneShotRow =
      .ok (delete_alarm [oneShotRow, lateOneShotRow] oneShotRow.id) ∧
    (∀ b ∈ delete_alarm [oneShotRow, lateOneShotRow] oneShotRow.id,
      b.id ≠ oneShotRow.id) ∧
    ∀ u : Nat,
      ∀ b ∈ get_user_alarms (delete_alarm [oneShotRow, lateOneShotRow] oneShotRow.id) u,
        b.id ≠ oneShotRow.id :=
  one_time_alarm_always_deleted sendFailEnv [oneShotRow, lateOneShotRow] oneShotRow
    rfl rfl rfl

/-- Claim C5: a recurring alarm whose delivery attempt fails (channel
resolved, send raised) ends its processing paused and otherwise untouched:
the result is exactly `set_alarm_paused … true`, which keeps the row count
(nothing deleted) and maps each row with the alarm's id to the same row
with `paused := true` — in particular `time` is unchanged — provided the
`set_alarm_paused` call in the handler commits. -/
theorem recurring_delivery_failure_pauses (env : Env) (s : Store) (a : Alarm)
    (hrep : repeatTruthy a.rep = true)
    (hch : channelFound env a.channel_id = true)
    (hsend : env.sendOk a.id = false)
    (hp : env.pauseOkExc a.id = true) :
    processAlarm env s a = .ok (set_alarm_paused s a.id true) ∧
    (set_alarm_paused s a.id true).length = s.length ∧
    ∀ b ∈ s,
      (b.id = a.id → { b with paused := true } ∈ set_alarm_paused s a.id true) ∧
      (b.id ≠ a.id → b ∈ set_alarm_paused s a.id true) := by
  refine ⟨?_, List.length_map _ _, fun b hb => ⟨fun hbi => ?_, fun hbi => ?_⟩⟩
  · unfold processAlarm handleAlarmError
    simp only [hrep, hch, hsend, hp, Bool.not_true, Bool.not_false, Bool.false_eq_true,
      if_false, if_true, ite_true, ite_false]
  · exact List.mem_map.2 ⟨b, hb, by rw [if_pos hbi]⟩
  · exact List.mem_map.2 ⟨b, hb, by rw [if_neg hbi]⟩

/-- Witness for C5: in `sendFailEnv` the daily row ends paused with its
time intact. -/
theorem recurring_delivery_failure_pauses_witness :
    processAlarm sendFailEnv [dailyRow] dailyRow =
      .ok (set_alarm_paused [dailyRow] dailyRow.id true) ∧
    (set_alarm_paused [dailyRow] dailyRow.id true).length = [dailyRow].length ∧
    ∀ b ∈ [dailyRow],
      (b.id = dailyRow.id →
        { b with paused := true } ∈ set_alarm_paused [dailyRow] dailyRow.id true) ∧
      (b.id ≠ dailyRow.id → b ∈ set_alarm_paused [dailyRow] dailyRow.id true) :=
  recurring_delivery_failure_pauses sendFailEnv [dailyRow] dailyRow rfl (by decide) rfl rfl

/-- Claim C3 counterexample: one recurring due alarm whose
`update_alarm_time` raises a storage error (`updFailEnv`). The scan does
not leave the alarm unmodified: the tick ends with the row paused, even
though delivery succeeded and only the storage mutation failed. -/
theorem storage_failure_not_left_unmodified :
    check_alarms updFailEnv [dailyRow] 100 =
      ([{ dailyRow with paused := true }], false) ∧
    dailyRow.paused = false := by
  exact ⟨by decide, rfl⟩

/-- Claim C3 amended: when a storage mutation for one alarm fails inside
the due scan, the exception is caught, but the alarm is then mutated by the
handler — paused if recurring, deleted if one-time — rather than left
unmodified; the scan continues only when that fallback store call commits,
and the exception escapes (aborting the scan) when it also fails. -/
theorem storage_failure_fallback_mutates (env : Env) (s : Store) (a : Alarm)
    (hch : channelFound env a.channel_id = true)
    (hsend : env.sendOk a.id = true)
    (htz : env.tzKnown a.timezone = true) :
    (repeatTruthy a.rep = true → env.updateOk a.id = false →
      (env.pauseOkExc a.id = true →
        processAlarm env s a = .ok (set_alarm_paused s a.id true)) ∧
      (env.pauseOkExc a.id = false → processAlarm env s a = .error ())) ∧
    (repeatTruthy a.rep = false → env.deleteOkTry a.id = false →
      (env.deleteOkExc a.id = true →
        processAlarm env s a = .ok (delete_alarm s a.id)) ∧
      (env.deleteOkExc a.id = false → processAlarm env s a = .error ())) := by
  constructor
  · intro hrep hupd
    constructor <;> intro hfb <;>
      · unfold processAlarm handleAlarmError
        simp only [hrep, hch, hsend, htz, hupd, hfb, Bool.not_true, Bool.not_false,
          Bool.false_eq_true, if_false, if_true, ite_true, ite_false]
  · intro hrep hdel
    constructor <;> intro hfb <;>
      · unfold processAlarm handleAlarmError
        simp only [hrep, hch, hsend, htz, hdel, hfb, Bool.not_true, Bool.not_false,
          Bool.false_eq_true, if_false, if_true, ite_true, ite_false]

/-- Witness for the amended C3: with `updFailEnv`, processing the daily row
yields exactly the paused store. -/
theorem storage_failure_fallback_mutates_witness :
    processAlarm updFailEnv [dailyRow] dailyRow =
      .ok (set_alarm_paused [dailyRow] dailyRow.id true) :=
  ((storage_failure_fallback_mutates updFailEnv [dailyRow] dailyRow
    (by decide) rfl rfl).1 rfl rfl).1 rfl

/-- Claim C6 counterexample: two due alarms; delivery for the first (a
recurring alarm) raises, and the handler's `set_alarm_paused` raises too
(`scanAbortEnv`), so the tick aborts (`true` flag) with the store
unchanged: the second due alarm is never processed, although processing it
would have deleted it. -/
theorem per_alarm_exception_aborts_scan :
    check_alarms scanAbortEnv [dailyRow, lateOneShotRow] 100 =
      ([dailyRow, lateOneShotRow], true) ∧
    processAlarm scanAbortEnv [dailyRow, lateOneShotRow] lateOneShotRow =
      .ok (delete_alarm [dailyRow, lateOneShotRow] lateOneShotRow.id) ∧
    lateOneShotRow ∈ ([dailyRow, lateOneShotRow] : Store) := by
  exact ⟨by decide, rfl, by decide⟩

/-- Inside the due-scan `except` handler, the fallback mutation commits when
its store flag is set, so the handler returns normally. -/
theorem handleAlarmError_isOk (env : Env) (s : Store) (a : Alarm)
    (hp : env.pauseOkExc a.id = true) (hd : env.deleteOkExc a.id = true) :
    ∃ s', handleAlarmError env s a = .ok s' := by
  unfold handleAlarmError
  cases hr : repeatTruthy a.rep <;> simp [hr, hp, hd]

/-- Per-alarm processing never lets an exception escape when the handler's
fallback store calls commit, whatever the delivery sink does. -/
theorem processAlarm_isOk (env : Env) (s : Store) (a : Alarm)
    (hp : env.pauseOkExc a.id = true) (hd : env.deleteOkExc a.id = true) :
    ∃ s', processAlarm env s a = .ok s' := by
  have hh := handleAlarmError_isOk env s a hp hd
  unfold processAlarm
  split_ifs <;> first | exact ⟨_, rfl⟩ | exact hh

/-- Claim C6 amended: a delivery exception is caught per alarm and, as long
as the fallback store mutations of the `except` handler commit, the scan of
one tick never aborts — all N due alarms are processed (the abort flag of
`check_alarms` is `false`) no matter which or how many deliveries fail. -/
theorem scan_survives_delivery_failures (env : Env) (s : Store) (now : Int)
    (hp : ∀ i, env.pauseOkExc i = true) (hd : ∀ i, env.deleteOkExc i = true) :
    (check_alarms env s now).2 = false := by
  unfold check_alarms
  generalize get_due_alarms s now = due
  induction due generalizing s with
  | nil => rfl
  | cons a rest ih =>
      obtain ⟨s', hs'⟩ := processAlarm_isOk env s a (hp a.id) (hd a.id)
      rw [runDueScan, hs']
      exact ih s'

/-- Witness for the amended C6: with every delivery failing but a healthy
store (`sendFailEnv`), a two-alarm tick completes without aborting. -/
theorem scan_survives_delivery_failures_witness :
    (check_alarms sendFailEnv [dailyRow, lateOneShotRow] 100).2 = false :=
  scan_survives_delivery_failures sendFailEnv [dailyRow, lateOneShotRow] 100
    (fun _ => rfl) (fun _ => rfl)

end AlarmBot
